import Mathlib

/-!
Shallow embedding of the JNI adapter
src/android/whisperlib/src/main/jni/whisper/jni.c.

The adapter marshals managed-runtime (Java/Kotlin) values into calls
against the external whisper inference library.  The external library and
the managed runtime are modelled as oracles (function parameters); the C
code of jni.c itself is embedded faithfully, including the C integer
conversions at the boundary (size_t is 64 bits, jint is a signed 32-bit
integer, jlong a signed 64-bit integer, all two's complement, as on
arm64 Android).
-/

/-- Conversion of a C signed integer value to size_t (unsigned 64-bit):
reduction modulo 2^64, landing in [0, 2^64). -/
def sizeT (x : Int) : Nat := (x % (2 ^ 64 : Int)).toNat

/-- Conversion of a nonnegative 64-bit quantity (a size_t value) to jint
(signed 32-bit): wrap modulo 2^32, then reinterpret as two's complement. -/
def toJint (x : Nat) : Int :=
  if x % 2 ^ 32 < 2 ^ 31 then ((x % 2 ^ 32 : Nat) : Int)
  else ((x % 2 ^ 32 : Nat) : Int) - 2 ^ 32

/-- Conversion of a native pointer value (an address in [0, 2^64)) to jlong
(signed 64-bit): wrap modulo 2^64, then reinterpret as two's complement. -/
def toJlong (x : Nat) : Int :=
  if x % 2 ^ 64 < 2 ^ 63 then ((x % 2 ^ 64 : Nat) : Int)
  else ((x % 2 ^ 64 : Nat) : Int) - 2 ^ 64

/-- The mutable part of struct input_stream_context (jni.c lines 25-33):
the running byte offset.  The JNIEnv, object references and method ids are
immutable plumbing and are represented by the oracle arguments of the
callbacks instead. -/
structure InputStreamContext where
  offset : Nat
deriving DecidableEq

/-- One call performed on the managed InputStream object.  Used to record,
per callback, which managed-stream methods it invokes. -/
inductive StreamCall
  | available : StreamCall
  | read : Int → StreamCall
deriving DecidableEq

/-- Result of one invocation of inputStreamRead (jni.c lines 35-58):
the updated adapter state, the number of bytes memcpy-ed into the native
output buffer, the size_t value returned to the native loader, and the
calls made on the managed stream. -/
structure ReadOutcome where
  state : InputStreamContext
  copied : Nat
  ret : Nat
  calls : List StreamCall
deriving DecidableEq

/-- inputStreamRead (jni.c lines 35-58).  read_size is the size_t request;
avail_size is the jint returned by the managed stream's available();
n_read is the jint returned by the managed stream's read(buf, 0, size_to_copy)
and is only logged, never used.  The C comparison read_size < avail_size
converts avail_size to size_t (usual arithmetic conversions); the cast
(jint)read_size wraps modulo 2^32; the returned jint size_to_copy is
converted back to size_t on return, and added to the size_t offset. -/
def inputStreamRead (is : InputStreamContext) (read_size : Nat)
    (avail_size : Int) (n_read : Int) : ReadOutcome :=
  let size_to_copy : Int :=
    if read_size < sizeT avail_size then toJint read_size else avail_size
  { state := { offset := (is.offset + sizeT size_to_copy) % 2 ^ 64 }
  , copied := sizeT size_to_copy
  , ret := sizeT size_to_copy
  , calls := [StreamCall.available, StreamCall.read size_to_copy] }

/-- inputStreamEof (jni.c lines 59-64): queries available() on the managed
stream and reports end-of-stream exactly when the result is at most 0. -/
def inputStreamEof (avail_size : Int) : Bool × List StreamCall :=
  (decide (avail_size ≤ 0), [StreamCall.available])

/-- inputStreamClose (jni.c lines 65-67): the body of the C function is
empty. -/
def inputStreamClose (is : InputStreamContext) :
    InputStreamContext × List StreamCall :=
  (is, [])

example : (inputStreamRead ⟨0⟩ 10 4 4).ret = 4 := by decide
example : (inputStreamRead ⟨0⟩ 10 (-5) 0).ret = 10 := by decide
example : (inputStreamRead ⟨0⟩ (2 ^ 31) (-1) 0).ret = 2 ^ 64 - 2 ^ 31 := by decide
example : (inputStreamEof (-3)).fst = true := by decide
example : (inputStreamEof 1).fst = false := by decide

/-- whisper_init_from_asset (jni.c lines 111-132).  α is the AAsset type;
openAsset is the oracle for AAssetManager_open (none models the NULL
return on failure); native_init is the oracle for
whisper_init_with_params on the asset-backed loader, returning the
address of the produced context (0 models the NULL pointer).  On a failed
open the function logs a warning and returns NULL without calling the
native initialization. -/
def whisper_init_from_asset {α : Type} (openAsset : String → Option α)
    (native_init : α → Nat) (asset_path : String) : Nat :=
  match openAsset asset_path with
  | none => 0
  | some asset => native_init asset

/-- initContextFromAsset (jni.c lines 134-143): calls
whisper_init_from_asset and returns the resulting context pointer cast to
jlong. -/
def initContextFromAsset {α : Type} (openAsset : String → Option α)
    (native_init : α → Nat) (asset_path : String) : Int :=
  toJlong (whisper_init_from_asset openAsset native_init asset_path)

/-- initContext (jni.c lines 145-154): calls
whisper_init_from_file_with_params (oracle native_init_from_file, 0
modelling a NULL context) on the model path and returns the resulting
context pointer cast to jlong. -/
def initContext (native_init_from_file : String → Nat)
    (model_path : String) : Int :=
  toJlong (native_init_from_file model_path)

/-- initContextFromInputStream (jni.c lines 69-97): builds the
stream-backed loader and passes it to whisper_init_with_params; the
address of the context produced by that external call (0 modelling NULL)
is the oracle argument, and the entry point returns it cast to jlong. -/
def initContextFromInputStream (native_init_result : Nat) : Int :=
  toJlong native_init_result

/-- The whisper_sampling_strategy enum of the native library's header. -/
inductive WhisperSamplingStrategy
  | WHISPER_SAMPLING_GREEDY
  | WHISPER_SAMPLING_BEAM_SEARCH
deriving DecidableEq

/-- The greedy sub-struct of whisper_full_params; jni.c sets its best_of
field. -/
structure WhisperGreedyParams where
  best_of : Int
deriving DecidableEq

/-- The fields of struct whisper_full_params that jni.c assigns (lines
175-216), plus the sampling strategy.  Fields of the native struct that
jni.c never touches are pass-throughs from the library's defaults and are
not represented.  The C float fields carry only literal constants in this
layer (no arithmetic), so they are embedded as rationals. -/
structure WhisperFullParams where
  strategy : WhisperSamplingStrategy
  print_realtime : Bool
  print_progress : Bool
  print_timestamps : Bool
  print_special : Bool
  translate : Bool
  language : String
  n_threads : Int
  offset_ms : Int
  duration_ms : Int
  no_context : Bool
  no_timestamps : Bool
  single_segment : Bool
  token_timestamps : Bool
  max_len : Int
  max_tokens : Int
  split_on_word : Bool
  audio_ctx : Int
  n_max_text_ctx : Int
  debug_mode : Bool
  tdrz_enable : Bool
  detect_language : Bool
  temperature : ℚ
  temperature_inc : ℚ
  entropy_thold : ℚ
  logprob_thold : ℚ
  no_speech_thold : ℚ
  suppress_blank : Bool
  suppress_nst : Bool
  greedy : WhisperGreedyParams
deriving DecidableEq

/-- Modelled from the spec: whisper_full_default_params belongs to the
external inference library, whose source is not part of this repository
fragment; the spec describes the hardcoded profile as greedy decoding,
i.e. the constructor records the requested sampling strategy in the
returned defaults.  Every other default field is left abstract and
supplied by the base argument. -/
def whisper_full_default_params (strategy : WhisperSamplingStrategy)
    (base : WhisperFullParams) : WhisperFullParams :=
  { base with strategy := strategy }

/-- The parameter assignments performed by fullTranscribe (jni.c lines
175-216) on top of the library defaults: every field the C code sets,
with the exact constants it assigns; num_threads is the caller's jint
argument. -/
def fullTranscribeParams (defaults : WhisperFullParams)
    (num_threads : Int) : WhisperFullParams :=
  { defaults with
    print_realtime := false
    print_progress := false
    print_timestamps := false
    print_special := false
    translate := false
    language := "en"
    n_threads := num_threads
    offset_ms := 0
    duration_ms := 0
    no_context := true
    no_timestamps := false
    single_segment := false
    token_timestamps := false
    max_len := 0
    max_tokens := 0
    split_on_word := true
    audio_ctx := 0
    n_max_text_ctx := 0
    debug_mode := false
    tdrz_enable := false
    detect_language := false
    temperature := 0
    temperature_inc := 0
    entropy_thold := 2.4
    logprob_thold := -1
    no_speech_thold := 0.6
    suppress_blank := true
    suppress_nst := false
    greedy := { defaults.greedy with best_of := 1 } }

/-- Behaviour of the native whisper context during one fullTranscribe
call, as an oracle over the parameters and the audio samples it is given:
the result code of whisper_full, the segment count and per-segment texts
readable afterwards (none models a NULL char pointer from
whisper_full_get_segment_text), and the contents of the pinned float
buffer after the native call.  σ is the jfloat sample type, which this
layer never inspects. -/
structure WhisperNative (σ : Type) where
  full_result : WhisperFullParams → List σ → Int
  n_segments : WhisperFullParams → List σ → Int
  segment_text : WhisperFullParams → List σ → Int → Option String
  buffer_after : WhisperFullParams → List σ → List σ

/-- The JNI release mode passed to ReleaseFloatArrayElements: copyBack
models mode 0 / JNI_COMMIT (write the buffer back to the managed array),
abortMode models JNI_ABORT (discard the buffer, managed array keeps its
old contents). -/
inductive ReleaseMode
  | copyBack
  | abortMode
deriving DecidableEq

/-- ReleaseFloatArrayElements: the managed array's contents after
releasing the pinned buffer with the given mode. -/
def releaseFloatArrayElements {σ : Type} (managed : List σ)
    (buffer : List σ) (mode : ReleaseMode) : List σ :=
  match mode with
  | ReleaseMode.copyBack => buffer
  | ReleaseMode.abortMode => managed

/-- The segment-concatenation loop of fullTranscribe (jni.c lines
252-264): starting from the empty string, append the text of segment i
for i = 0, 1, ..., skipping segments whose text pointer is NULL. -/
def concatSegments (texts : Int → Option String) : Nat → String
  | 0 => ""
  | Nat.succ n => concatSegments texts n ++ ((texts (n : Int)).getD "")

/-- What one call of fullTranscribe produces: the returned jstring, the
managed audio array's contents after the call, the release mode used on
the pinned float buffer, and the whisper_full_params value passed to
whisper_full. -/
structure TranscribeOutcome (σ : Type) where
  text : String
  managedAudio : List σ
  releaseMode : ReleaseMode
  paramsUsed : WhisperFullParams

/-- fullTranscribe (jni.c lines 165-271).  Builds the fixed parameter
profile from the library's greedy defaults, runs whisper_full, and on a
non-zero result returns the empty string, else concatenates the texts of
segments 0 .. n_segments-1; the pinned float array is released with
JNI_ABORT on both paths.  Logging and whisper_reset_timings /
whisper_get_timings calls have no effect on any output and are omitted. -/
def fullTranscribe {σ : Type} (native : WhisperNative σ)
    (defaults : WhisperFullParams) (num_threads : Int) (audio : List σ) :
    TranscribeOutcome σ :=
  let params := fullTranscribeParams
    (whisper_full_default_params WhisperSamplingStrategy.WHISPER_SAMPLING_GREEDY defaults)
    num_threads
  let result := native.full_result params audio
  if result ≠ 0 then
    { text := ""
    , managedAudio :=
        releaseFloatArrayElements audio (native.buffer_after params audio)
          ReleaseMode.abortMode
    , releaseMode := ReleaseMode.abortMode
    , paramsUsed := params }
  else
    { text := concatSegments (native.segment_text params audio)
        (native.n_segments params audio).toNat
    , managedAudio :=
        releaseFloatArrayElements audio (native.buffer_after params audio)
          ReleaseMode.abortMode
    , releaseMode := ReleaseMode.abortMode
    , paramsUsed := params }

lemma sizeT_of_nonneg (a : Int) (h0 : 0 ≤ a) (h : a < 2 ^ 64) :
    sizeT a = a.toNat := by
  unfold sizeT; omega

lemma sizeT_of_neg (a : Int) (h0 : -2 ^ 64 ≤ a) (h : a < 0) :
    sizeT a = (a + 2 ^ 64).toNat := by
  unfold sizeT; omega

lemma toJint_small (n : Nat) (h : n < 2 ^ 31) : toJint n = (n : Int) := by
  unfold toJint; split <;> omega

lemma toJlong_eq_zero_iff (x : Nat) (h : x < 2 ^ 64) :
    toJlong x = 0 ↔ x = 0 := by
  unfold toJlong; split <;> omega

lemma inputStreamRead_ret_eq (is : InputStreamContext) (read_size : Nat)
    (avail_size n_read : Int) :
    (inputStreamRead is read_size avail_size n_read).ret
      = sizeT (if read_size < sizeT avail_size then toJint read_size
               else avail_size) := rfl

lemma inputStreamRead_copied_eq (is : InputStreamContext) (read_size : Nat)
    (avail_size n_read : Int) :
    (inputStreamRead is read_size avail_size n_read).copied
      = sizeT (if read_size < sizeT avail_size then toJint read_size
               else avail_size) := rfl

lemma clamp_of_avail_nonneg (read_size : Nat) (avail_size : Int)
    (h1 : read_size < 2 ^ 64) (h2 : 0 ≤ avail_size)
    (h3 : avail_size < 2 ^ 31) :
    sizeT (if read_size < sizeT avail_size then toJint read_size
           else avail_size)
      = min read_size avail_size.toNat := by
  have hs : sizeT avail_size = avail_size.toNat :=
    sizeT_of_nonneg _ h2 (by omega)
  rw [hs]
  by_cases hc : read_size < avail_size.toNat
  · rw [if_pos hc, toJint_small read_size (by omega),
      sizeT_of_nonneg _ (by omega) (by omega)]
    omega
  · rw [if_neg hc, hs]
    omega

/-- Claim C4: for every read request of size r, when the managed stream
reports a available bytes (a nonnegative jint, as an available-byte count
is), inputStreamRead memcpy-s exactly min(r, a) bytes into the native
output buffer and returns min(r, a) as the bytes-copied count; the n_read
value actually returned by the managed stream's read call is only logged
and does not change any output of the call. -/
theorem inputStreamRead_clamps_to_available (is : InputStreamContext)
    (read_size : Nat) (avail_size n_read n_read' : Int)
    (h1 : read_size < 2 ^ 64) (h2 : 0 ≤ avail_size)
    (h3 : avail_size < 2 ^ 31) :
    (inputStreamRead is read_size avail_size n_read).ret
      = min read_size avail_size.toNat
    ∧ (inputStreamRead is read_size avail_size n_read).copied
      = min read_size avail_size.toNat
    ∧ inputStreamRead is read_size avail_size n_read
      = inputStreamRead is read_size avail_size n_read' :=
  ⟨(inputStreamRead_ret_eq is read_size avail_size n_read).trans
      (clamp_of_avail_nonneg read_size avail_size h1 h2 h3),
   (inputStreamRead_copied_eq is read_size avail_size n_read).trans
      (clamp_of_avail_nonneg read_size avail_size h1 h2 h3),
   rfl⟩

/-- Claim C4, witness: a request of 10 bytes against a stream reporting 4
available bytes copies and returns exactly 4 = min(10, 4) bytes, whatever
the stream's read call reports back. -/
theorem inputStreamRead_clamps_to_available_witness :
    (10 : Nat) < 2 ^ 64 ∧ (0 : Int) ≤ 4 ∧ (4 : Int) < 2 ^ 31
    ∧ ((inputStreamRead ⟨0⟩ 10 4 7).ret = min 10 (4 : Int).toNat
      ∧ (inputStreamRead ⟨0⟩ 10 4 7).copied = min 10 (4 : Int).toNat
      ∧ inputStreamRead ⟨0⟩ 10 4 7 = inputStreamRead ⟨0⟩ 10 4 3) :=
  ⟨by decide, by decide, by decide,
   inputStreamRead_clamps_to_available ⟨0⟩ 10 4 7 3
     (by decide) (by decide) (by decide)⟩

/-- Claim C5, counterexample: the claim quantifies over every requested
read size and every possible jint available-byte count.  At the request
size 2^31 with the stream reporting -1 available bytes, the C comparison
promotes -1 to the size_t 2^64 - 1, so the branch taken casts the request
to the jint -2^31, which converts back to the size_t 2^64 - 2^31 on
return: the returned byte count exceeds the requested size. -/
theorem inputStreamRead_ret_exceeds_request :
    ¬ ((inputStreamRead ⟨0⟩ (2 ^ 31) (-1) 0).ret ≤ 2 ^ 31) := by decide

/-- Claim C5 as amended: for every requested read size that is
representable as a nonnegative jint (r < 2^31 — every request the native
loader actually issues), the byte count returned by inputStreamRead never
exceeds the requested size, for all possible jint values (including
negative ones) of the managed stream's reported available-byte count. -/
theorem inputStreamRead_ret_le_request (is : InputStreamContext)
    (read_size : Nat) (avail_size n_read : Int)
    (h1 : read_size < 2 ^ 31) (h2 : -2 ^ 31 ≤ avail_size)
    (h3 : avail_size < 2 ^ 31) :
    (inputStreamRead is read_size avail_size n_read).ret ≤ read_size := by
  rw [inputStreamRead_ret_eq]
  by_cases ha : 0 ≤ avail_size
  · have hs : sizeT avail_size = avail_size.toNat :=
      sizeT_of_nonneg _ ha (by omega)
    rw [hs]
    by_cases hc : read_size < avail_size.toNat
    · rw [if_pos hc, toJint_small read_size h1,
        sizeT_of_nonneg _ (by omega) (by omega)]
      omega
    · rw [if_neg hc, hs]
      omega
  · have hs : sizeT avail_size = (avail_size + 2 ^ 64).toNat :=
      sizeT_of_neg _ (by omega) (by omega)
    rw [hs, if_pos (by omega), toJint_small read_size h1,
      sizeT_of_nonneg _ (by omega) (by omega)]
    omega

/-- Claim C5 as amended, witness: a 5-byte request against a stream
reporting -1 available bytes still returns at most 5 bytes. -/
theorem inputStreamRead_ret_le_request_witness :
    (5 : Nat) < 2 ^ 31 ∧ (-2 ^ 31 : Int) ≤ -1 ∧ (-1 : Int) < 2 ^ 31
    ∧ (inputStreamRead ⟨0⟩ 5 (-1) 0).ret ≤ 5 :=
  ⟨by decide, by decide, by decide,
   inputStreamRead_ret_le_request ⟨0⟩ 5 (-1) 0
     (by decide) (by decide) (by decide)⟩

/-- Claim C6: the eof callback reports end-of-stream exactly when the
managed stream's available-byte count is at most zero. -/
theorem inputStreamEof_iff_avail_nonpos (avail_size : Int) :
    (inputStreamEof avail_size).fst = true ↔ avail_size ≤ 0 := by
  simp [inputStreamEof]

/-- Claim C10: the close callback of the stream-backed loader is a no-op:
it performs no call on the managed input stream and leaves the adapter
state, including the byte offset, unchanged. -/
theorem inputStreamClose_noop (is : InputStreamContext) :
    inputStreamClose is = (is, []) := rfl

/-- Claim C7: when the asset-manager open call fails (returns null), the
asset-backed initialization logs a warning and hands the managed caller
the zero handle, and the native inference-library initialization is never
invoked: the outcome is the same for every native-initialization
behaviour. -/
theorem initContextFromAsset_null_on_open_failure {α : Type}
    (openAsset : String → Option α) (native_init native_init' : α → Nat)
    (asset_path : String) (h : openAsset asset_path = none) :
    initContextFromAsset openAsset native_init asset_path = 0
    ∧ whisper_init_from_asset openAsset native_init asset_path = 0
    ∧ initContextFromAsset openAsset native_init asset_path
        = initContextFromAsset openAsset native_init' asset_path := by
  unfold initContextFromAsset whisper_init_from_asset
  rw [h]
  refine ⟨?_, rfl, rfl⟩
  show toJlong 0 = 0
  decide

/-- An asset-open oracle that always fails, for the witness of claim
C7. -/
def noAsset : String → Option Unit := fun _ => none

/-- Claim C7, witness: with an asset manager that fails to open the
asset, the entry point returns the zero handle, and its result does not
depend on the native-initialization oracle. -/
theorem initContextFromAsset_null_on_open_failure_witness :
    noAsset "models/ggml-tiny.bin" = none
    ∧ (initContextFromAsset noAsset (fun _ => 7) "models/ggml-tiny.bin" = 0
      ∧ whisper_init_from_asset noAsset (fun _ => 7) "models/ggml-tiny.bin" = 0
      ∧ initContextFromAsset noAsset (fun _ => 7) "models/ggml-tiny.bin"
          = initContextFromAsset noAsset (fun _ => 9) "models/ggml-tiny.bin") :=
  ⟨rfl, initContextFromAsset_null_on_open_failure noAsset
    (fun _ => 7) (fun _ => 9) "models/ggml-tiny.bin" rfl⟩

/-- Claim C8: each initialization entry point (initContext from a file
path, initContextFromAsset, initContextFromInputStream) returns the
native context's address cast to jlong as the handle, and the handle is
zero exactly when the underlying initialization produced a NULL (address
0) context.  The hypotheses record that native addresses fit in 64
bits. -/
theorem init_entry_points_handle_contract {α : Type}
    (native_init_from_file : String → Nat) (openAsset : String → Option α)
    (native_init : α → Nat) (native_init_result : Nat)
    (model_path asset_path : String)
    (h1 : native_init_from_file model_path < 2 ^ 64)
    (h2 : whisper_init_from_asset openAsset native_init asset_path < 2 ^ 64)
    (h3 : native_init_result < 2 ^ 64) :
    (initContext native_init_from_file model_path
        = toJlong (native_init_from_file model_path)
      ∧ (initContext native_init_from_file model_path = 0
          ↔ native_init_from_file model_path = 0))
    ∧ (initContextFromAsset openAsset native_init asset_path
        = toJlong (whisper_init_from_asset openAsset native_init asset_path)
      ∧ (initContextFromAsset openAsset native_init asset_path = 0
          ↔ whisper_init_from_asset openAsset native_init asset_path = 0))
    ∧ (initContextFromInputStream native_init_result
        = toJlong native_init_result
      ∧ (initContextFromInputStream native_init_result = 0
          ↔ native_init_result = 0)) :=
  ⟨⟨rfl, toJlong_eq_zero_iff _ h1⟩,
   ⟨rfl, toJlong_eq_zero_iff _ h2⟩,
   ⟨rfl, toJlong_eq_zero_iff _ h3⟩⟩

/-- A file-path initialization oracle that fails (NULL context), for the
witness of claim C8. -/
def fileInitFail : String → Nat := fun _ => 0

/-- An asset-open oracle that succeeds, for the witness of claim C8. -/
def someAsset : String → Option Unit := fun _ => some ()

/-- An asset-backed initialization oracle producing the context address
4096, for the witness of claim C8. -/
def assetInit : Unit → Nat := fun _ => 4096

/-- Claim C8, witness: a failed file-path initialization yields handle 0;
a successful asset initialization at address 4096 yields handle 4096; a
stream initialization at the high address 2^63 yields the (negative)
jlong reinterpretation of that address, which is still nonzero. -/
theorem init_entry_points_handle_contract_witness :
    fileInitFail "ggml-base.bin" < 2 ^ 64
    ∧ whisper_init_from_asset someAsset assetInit "ggml-base.bin" < 2 ^ 64
    ∧ (2 ^ 63 : Nat) < 2 ^ 64
    ∧ ((initContext fileInitFail "ggml-base.bin"
          = toJlong (fileInitFail "ggml-base.bin")
        ∧ (initContext fileInitFail "ggml-base.bin" = 0
            ↔ fileInitFail "ggml-base.bin" = 0))
      ∧ (initContextFromAsset someAsset assetInit "ggml-base.bin"
          = toJlong (whisper_init_from_asset someAsset assetInit "ggml-base.bin")
        ∧ (initContextFromAsset someAsset assetInit "ggml-base.bin" = 0
            ↔ whisper_init_from_asset someAsset assetInit "ggml-base.bin" = 0))
      ∧ (initContextFromInputStream (2 ^ 63) = toJlong (2 ^ 63)
        ∧ (initContextFromInputStream (2 ^ 63) = 0 ↔ (2 ^ 63 : Nat) = 0))) :=
  ⟨by decide, by decide, by decide,
   init_entry_points_handle_contract fileInitFail someAsset assetInit
     (2 ^ 63) "ggml-base.bin" "ggml-base.bin"
     (by decide) (by decide) (by decide)⟩

lemma concatSegments_eq_join (texts : Int → Option String) (n : Nat) :
    concatSegments texts n
      = String.join ((List.range n).map fun i : Nat => ((texts (i : Int)).getD "")) := by
  induction n with
  | zero => rfl
  | succ n ih =>
      rw [concatSegments, ih, List.range_succ, List.map_append]
      simp [String.join, List.foldl_append]

lemma fullTranscribe_paramsUsed {σ : Type} (native : WhisperNative σ)
    (defaults : WhisperFullParams) (num_threads : Int) (audio : List σ) :
    (fullTranscribe native defaults num_threads audio).paramsUsed
      = fullTranscribeParams
          (whisper_full_default_params
            WhisperSamplingStrategy.WHISPER_SAMPLING_GREEDY defaults)
          num_threads := by
  simp only [fullTranscribe]
  split <;> rfl

/-- Claim C1: for every native-context behaviour, thread count and audio
array, if the native whisper_full call returns a non-zero result code,
fullTranscribe returns the empty string (the embedding is a total
function into String, so the call neither crashes nor produces a null
string). -/
theorem fullTranscribe_nonzero_result_empty_string {σ : Type}
    (native : WhisperNative σ) (defaults : WhisperFullParams)
    (num_threads : Int) (audio : List σ)
    (h : native.full_result
          (fullTranscribeParams
            (whisper_full_default_params
              WhisperSamplingStrategy.WHISPER_SAMPLING_GREEDY defaults)
            num_threads)
          audio ≠ 0) :
    (fullTranscribe native defaults num_threads audio).text = "" := by
  simp only [fullTranscribe]
  rw [if_pos h]

/-- A concrete default-parameter record, used only to instantiate
witnesses; its field values are deliberately different from the profile
fullTranscribe installs. -/
def sampleDefaults : WhisperFullParams :=
  { strategy := WhisperSamplingStrategy.WHISPER_SAMPLING_BEAM_SEARCH
  , print_realtime := true
  , print_progress := true
  , print_timestamps := true
  , print_special := true
  , translate := true
  , language := "auto"
  , n_threads := 4
  , offset_ms := 0
  , duration_ms := 0
  , no_context := false
  , no_timestamps := false
  , single_segment := false
  , token_timestamps := false
  , max_len := 0
  , max_tokens := 0
  , split_on_word := false
  , audio_ctx := 0
  , n_max_text_ctx := 16384
  , debug_mode := false
  , tdrz_enable := false
  , detect_language := false
  , temperature := 0
  , temperature_inc := 0.2
  , entropy_thold := 2.4
  , logprob_thold := -1
  , no_speech_thold := 0.6
  , suppress_blank := true
  , suppress_nst := false
  , greedy := { best_of := 5 } }

/-- A native context whose whisper_full call fails with code -6, for the
witness of claim C1. -/
def failingNative : WhisperNative Unit :=
  { full_result := fun _ _ => -6
  , n_segments := fun _ _ => 0
  , segment_text := fun _ _ _ => none
  , buffer_after := fun _ a => a }

/-- Claim C1, witness: against a native context whose whisper_full call
returns -6, fullTranscribe returns the empty string. -/
theorem fullTranscribe_nonzero_result_empty_string_witness :
    failingNative.full_result
        (fullTranscribeParams
          (whisper_full_default_params
            WhisperSamplingStrategy.WHISPER_SAMPLING_GREEDY sampleDefaults)
          4)
        [] ≠ 0
    ∧ (fullTranscribe failingNative sampleDefaults 4 []).text = "" :=
  ⟨by decide,
   fullTranscribe_nonzero_result_empty_string failingNative sampleDefaults 4 []
     (by decide)⟩

/-- Claim C2: for every native-context behaviour and audio array, if the
native whisper_full call returns 0, fullTranscribe returns the
concatenation, in increasing segment-index order over the indices
0 .. whisper_full_n_segments - 1, of the texts of all produced segments
(a NULL segment-text pointer contributes nothing), as a single string. -/
theorem fullTranscribe_success_concat_segments {σ : Type}
    (native : WhisperNative σ) (defaults : WhisperFullParams)
    (num_threads : Int) (audio : List σ)
    (h : native.full_result
          (fullTranscribeParams
            (whisper_full_default_params
              WhisperSamplingStrategy.WHISPER_SAMPLING_GREEDY defaults)
            num_threads)
          audio = 0) :
    (fullTranscribe native defaults num_threads audio).text
      = String.join
          ((List.range
              (native.n_segments
                (fullTranscribeParams
                  (whisper_full_default_params
                    WhisperSamplingStrategy.WHISPER_SAMPLING_GREEDY defaults)
                  num_threads)
                audio).toNat).map
            fun i : Nat =>
              ((native.segment_text
                  (fullTranscribeParams
                    (whisper_full_default_params
                      WhisperSamplingStrategy.WHISPER_SAMPLING_GREEDY defaults)
                    num_threads)
                  audio (i : Int)).getD "")) := by
  simp only [fullTranscribe]
  rw [if_neg (by simp [h])]
  exact concatSegments_eq_join _ _

/-- A native context whose whisper_full call succeeds and produces two
text segments, for the witness of claim C2. -/
def successNative : WhisperNative Unit :=
  { full_result := fun _ _ => 0
  , n_segments := fun _ _ => 2
  , segment_text := fun _ _ i =>
      if i = 0 then some " Hello" else if i = 1 then some " world." else none
  , buffer_after := fun _ a => a }

/-- Claim C2, witness: against a native context that succeeds with two
segments, fullTranscribe returns the join of the two segment texts in
index order, i.e. the string " Hello world.". -/
theorem fullTranscribe_success_concat_segments_witness :
    successNative.full_result
        (fullTranscribeParams
          (whisper_full_default_params
            WhisperSamplingStrategy.WHISPER_SAMPLING_GREEDY sampleDefaults)
          4)
        [] = 0
    ∧ (fullTranscribe successNative sampleDefaults 4 []).text
        = String.join
            ((List.range
                (successNative.n_segments
                  (fullTranscribeParams
                    (whisper_full_default_params
                      WhisperSamplingStrategy.WHISPER_SAMPLING_GREEDY sampleDefaults)
                    4)
                  []).toNat).map
              fun i : Nat =>
                ((successNative.segment_text
                    (fullTranscribeParams
                      (whisper_full_default_params
                        WhisperSamplingStrategy.WHISPER_SAMPLING_GREEDY sampleDefaults)
                      4)
                    [] (i : Int)).getD ""))
    ∧ (fullTranscribe successNative sampleDefaults 4 []).text = " Hello world." :=
  ⟨rfl,
   fullTranscribe_success_concat_segments successNative sampleDefaults 4 [] rfl,
   by decide⟩

/-- Claim C3: the whisper_full_params value fullTranscribe passes to
whisper_full is determined by the library defaults and the num_threads
argument alone — it is the same for every audio input — and it carries
the hardcoded profile: greedy sampling with best_of = 1, language "en",
print_realtime, print_progress, print_timestamps and print_special all
false, temperature = 0 and temperature_inc = 0 (no fallback temperature
search); the only caller-controlled field is n_threads, which equals the
num_threads argument. -/
theorem fullTranscribe_params_profile_fixed {σ : Type}
    (native : WhisperNative σ) (defaults : WhisperFullParams)
    (num_threads : Int) (audio audio' : List σ) :
    (fullTranscribe native defaults num_threads audio).paramsUsed
      = fullTranscribeParams
          (whisper_full_default_params
            WhisperSamplingStrategy.WHISPER_SAMPLING_GREEDY defaults)
          num_threads
    ∧ (fullTranscribe native defaults num_threads audio').paramsUsed
      = (fullTranscribe native defaults num_threads audio).paramsUsed
    ∧ (fullTranscribe native defaults num_threads audio).paramsUsed.strategy
      = WhisperSamplingStrategy.WHISPER_SAMPLING_GREEDY
    ∧ (fullTranscribe native defaults num_threads audio).paramsUsed.greedy.best_of = 1
    ∧ (fullTranscribe native defaults num_threads audio).paramsUsed.language = "en"
    ∧ (fullTranscribe native defaults num_threads audio).paramsUsed.print_realtime = false
    ∧ (fullTranscribe native defaults num_threads audio).paramsUsed.print_progress = false
    ∧ (fullTranscribe native defaults num_threads audio).paramsUsed.print_timestamps = false
    ∧ (fullTranscribe native defaults num_threads audio).paramsUsed.print_special = false
    ∧ (fullTranscribe native defaults num_threads audio).paramsUsed.temperature = 0
    ∧ (fullTranscribe native defaults num_threads audio).paramsUsed.temperature_inc = 0
    ∧ (fullTranscribe native defaults num_threads audio).paramsUsed.n_threads = num_threads := by
  have hp := fullTranscribe_paramsUsed native defaults num_threads audio
  have hp' := fullTranscribe_paramsUsed native defaults num_threads audio'
  refine ⟨hp, hp'.trans hp.symm, ?_, ?_, ?_, ?_, ?_, ?_, ?_, ?_, ?_, ?_⟩ <;>
    rw [hp] <;> rfl

/-- Claim C9: on the success path and on the failure path alike,
fullTranscribe releases the caller's pinned float array with JNI_ABORT
(no write-back), so the managed audio array's contents are unchanged by
the call, whatever the native code did to the pinned buffer. -/
theorem fullTranscribe_releases_audio_abort {σ : Type}
    (native : WhisperNative σ) (defaults : WhisperFullParams)
    (num_threads : Int) (audio : List σ) :
    (fullTranscribe native defaults num_threads audio).managedAudio = audio
    ∧ (fullTranscribe native defaults num_threads audio).releaseMode
      = ReleaseMode.abortMode := by
  simp only [fullTranscribe]
  split <;> exact ⟨rfl, rfl⟩
